import Mathlib

/-!
# Error classification and compliance harness of the mustache package

A shallow embedding of `errortype.go` (the error-kind wrapper and its
classifier) and of the fixture table and `runTest` of `spec_test.go`.
-/

set_option autoImplicit false

namespace Mustache

/-! ## errortype.go -/

/-- Go `type ErrorType int`.  Only equality of kinds is ever computed, so the
machine width of `int` plays no role and the integers stand for it. -/
abbrev ErrorType := Int

/-- The kind `ErrorTypeNone` (iota 0): a non-error. -/
def ErrorTypeNone : ErrorType := 0

/-- The kind `ErrorTypeUnknown` (iota 1): an error of unknown type. -/
def ErrorTypeUnknown : ErrorType := 1

/-- The kind `ErrorTypeMissingParams` (iota 2): template parameters are missing. -/
def ErrorTypeMissingParams : ErrorType := 2

/-- A value of the Go interface type `error`.
* `nil` is the nil interface value;
* `foreign msg` is a non-nil value whose dynamic type is not `e`, kept as the
  text its `Error()` method returns;
* `e err errorType` is a value of dynamic type `e`, the struct
  `{ error; errorType ErrorType }` with its embedded error and its tag. -/
inductive GoError where
  | nil : GoError
  | foreign (msg : String) : GoError
  | e (err : GoError) (errorType : ErrorType) : GoError
  deriving DecidableEq, Repr

/-- The comparison `err == nil` on an interface value. -/
def GoError.isNil : GoError → Bool
  | .nil => true
  | _ => false

/-- The type assertion `e, ok := err.(e)` on a non-nil or nil interface value:
the fields of the struct when the dynamic type is `e`, otherwise `none`
(`ok = false`). -/
def GoError.assertE : GoError → Option (GoError × ErrorType)
  | .e err errorType => some (err, errorType)
  | _ => none

/-- Calling `err.Error()`.  A nil interface has no method to call and the run
time panics (`none`); a value of type `e` forwards to the embedded error, its
only source of an `Error` method. -/
def GoError.Error : GoError → Option String
  | .nil => none
  | .foreign msg => some msg
  | .e err _ => err.Error

/-- Go `WrapError`: builds the struct `e{err, errorType}` and returns it as an
`error`. -/
def WrapError (err : GoError) (errorType : ErrorType) : GoError :=
  GoError.e err errorType

/-- Go `ErrorMatchesType`. -/
def ErrorMatchesType (err : GoError) (errorType : ErrorType) : Bool :=
  if err.isNil then
    errorType == ErrorTypeNone
  else
    match err.assertE with
    | none => errorType == ErrorTypeUnknown
    | some (_, et) => et == errorType

/-! ## spec_test.go -/

/-- Go `type container struct { enabled bool; acceptMissing bool }`. -/
structure container where
  enabled : Bool
  acceptMissing : Bool
  deriving DecidableEq, Repr

/-- Go `var enabledTests = map[string]map[string]container{...}`, every entry in
source order.  A Go map literal has no duplicate keys, so an association list
read by first match is the same finite map.  The inner map of `~lambdas.json`
is `nil` (`none`). -/
def enabledTests : List (String × Option (List (String × container))) := [
  ("comments.json", some [
    ("Inline", ⟨true, false⟩),
    ("Multiline", ⟨true, false⟩),
    ("Standalone", ⟨true, false⟩),
    ("Indented Standalone", ⟨true, false⟩),
    ("Standalone Line Endings", ⟨true, false⟩),
    ("Standalone Without Previous Line", ⟨true, false⟩),
    ("Standalone Without Newline", ⟨true, false⟩),
    ("Multiline Standalone", ⟨true, false⟩),
    ("Indented Multiline Standalone", ⟨true, false⟩),
    ("Indented Inline", ⟨true, false⟩),
    ("Surrounding Whitespace", ⟨true, false⟩)]),
  ("delimiters.json", some [
    ("Pair Behavior", ⟨true, false⟩),
    ("Special Characters", ⟨true, false⟩),
    ("Sections", ⟨true, false⟩),
    ("Inverted Sections", ⟨true, false⟩),
    ("Partial Inheritence", ⟨true, false⟩),
    ("Post-Partial Behavior", ⟨true, false⟩),
    ("Outlying Whitespace (Inline)", ⟨true, false⟩),
    ("Standalone Tag", ⟨true, false⟩),
    ("Indented Standalone Tag", ⟨true, false⟩),
    ("Pair with Padding", ⟨true, false⟩),
    ("Surrounding Whitespace", ⟨true, false⟩),
    ("Standalone Line Endings", ⟨true, false⟩),
    ("Standalone Without Previous Line", ⟨true, false⟩),
    ("Standalone Without Newline", ⟨true, false⟩)]),
  ("interpolation.json", some [
    ("No Interpolation", ⟨true, false⟩),
    ("Basic Interpolation", ⟨true, false⟩),
    ("HTML Escaping", ⟨false, true⟩),
    ("Triple Mustache", ⟨true, false⟩),
    ("Ampersand", ⟨true, false⟩),
    ("Basic Integer Interpolation", ⟨true, false⟩),
    ("Triple Mustache Integer Interpolation", ⟨true, false⟩),
    ("Ampersand Integer Interpolation", ⟨true, false⟩),
    ("Basic Decimal Interpolation", ⟨true, false⟩),
    ("Triple Mustache Decimal Interpolation", ⟨true, false⟩),
    ("Ampersand Decimal Interpolation", ⟨true, false⟩),
    ("Basic Context Miss Interpolation", ⟨true, true⟩),
    ("Triple Mustache Context Miss Interpolation", ⟨true, true⟩),
    ("Ampersand Context Miss Interpolation", ⟨true, true⟩),
    ("Dotted Names - Basic Interpolation", ⟨true, false⟩),
    ("Dotted Names - Triple Mustache Interpolation", ⟨true, false⟩),
    ("Dotted Names - Ampersand Interpolation", ⟨true, false⟩),
    ("Dotted Names - Arbitrary Depth", ⟨true, false⟩),
    ("Dotted Names - Broken Chains", ⟨true, true⟩),
    ("Dotted Names - Broken Chain Resolution", ⟨true, true⟩),
    ("Dotted Names - Initial Resolution", ⟨true, false⟩),
    ("Interpolation - Surrounding Whitespace", ⟨true, false⟩),
    ("Triple Mustache - Surrounding Whitespace", ⟨true, false⟩),
    ("Ampersand - Surrounding Whitespace", ⟨true, false⟩),
    ("Interpolation - Standalone", ⟨true, false⟩),
    ("Triple Mustache - Standalone", ⟨true, false⟩),
    ("Ampersand - Standalone", ⟨true, false⟩),
    ("Interpolation With Padding", ⟨true, false⟩),
    ("Triple Mustache With Padding", ⟨true, false⟩),
    ("Ampersand With Padding", ⟨true, false⟩)]),
  ("inverted.json", some [
    ("Falsey", ⟨true, false⟩),
    ("Truthy", ⟨true, false⟩),
    ("Context", ⟨true, false⟩),
    ("List", ⟨true, false⟩),
    ("Empty List", ⟨true, false⟩),
    ("Doubled", ⟨true, false⟩),
    ("Nested (Falsey)", ⟨true, false⟩),
    ("Nested (Truthy)", ⟨true, false⟩),
    ("Context Misses", ⟨true, true⟩),
    ("Dotted Names - Truthy", ⟨true, false⟩),
    ("Dotted Names - Falsey", ⟨true, false⟩),
    ("Internal Whitespace", ⟨true, false⟩),
    ("Indented Inline Sections", ⟨true, false⟩),
    ("Standalone Lines", ⟨true, false⟩),
    ("Standalone Indented Lines", ⟨true, false⟩),
    ("Padding", ⟨true, false⟩),
    ("Dotted Names - Broken Chains", ⟨true, true⟩),
    ("Surrounding Whitespace", ⟨true, false⟩),
    ("Standalone Line Endings", ⟨true, false⟩),
    ("Standalone Without Previous Line", ⟨true, false⟩),
    ("Standalone Without Newline", ⟨true, false⟩)]),
  ("partials.json", some [
    ("Basic Behavior", ⟨true, false⟩),
    ("Failed Lookup", ⟨true, false⟩),
    ("Context", ⟨true, false⟩),
    ("Recursion", ⟨true, false⟩),
    ("Surrounding Whitespace", ⟨true, false⟩),
    ("Inline Indentation", ⟨true, false⟩),
    ("Standalone Line Endings", ⟨true, false⟩),
    ("Standalone Without Previous Line", ⟨true, false⟩),
    ("Standalone Without Newline", ⟨true, false⟩),
    ("Standalone Indentation", ⟨true, false⟩),
    ("Padding Whitespace", ⟨true, false⟩)]),
  ("sections.json", some [
    ("Truthy", ⟨true, false⟩),
    ("Falsey", ⟨true, false⟩),
    ("Context", ⟨true, false⟩),
    ("Deeply Nested Contexts", ⟨true, false⟩),
    ("List", ⟨true, false⟩),
    ("Empty List", ⟨true, false⟩),
    ("Doubled", ⟨true, false⟩),
    ("Nested (Truthy)", ⟨true, false⟩),
    ("Nested (Falsey)", ⟨true, false⟩),
    ("Context Misses", ⟨true, true⟩),
    ("Implicit Iterator - String", ⟨true, false⟩),
    ("Implicit Iterator - Integer", ⟨true, false⟩),
    ("Implicit Iterator - Decimal", ⟨true, false⟩),
    ("Implicit Iterator - Array", ⟨true, false⟩),
    ("Dotted Names - Truthy", ⟨true, false⟩),
    ("Dotted Names - Falsey", ⟨true, false⟩),
    ("Dotted Names - Broken Chains", ⟨true, true⟩),
    ("Surrounding Whitespace", ⟨true, false⟩),
    ("Internal Whitespace", ⟨true, false⟩),
    ("Indented Inline Sections", ⟨true, false⟩),
    ("Standalone Lines", ⟨true, false⟩),
    ("Indented Standalone Lines", ⟨true, false⟩),
    ("Standalone Line Endings", ⟨true, false⟩),
    ("Standalone Without Previous Line", ⟨true, false⟩),
    ("Standalone Without Newline", ⟨true, false⟩),
    ("Padding", ⟨true, false⟩)]),
  ("~lambdas.json", none)]

/-- The zero value of `container`, which indexing a map yields for an absent key. -/
def container.zero : container := ⟨false, false⟩

/-- The two-step map index `c, ok := enabledTests[file][name]`: an absent file
or a nil inner map gives the zero container and `ok = false`, as does an absent
name. -/
def lookupTest (file name : String) : container × Bool :=
  match enabledTests.lookup file with
  | some (some m) =>
    match m.lookup name with
    | some c => (c, true)
    | none => (container.zero, false)
  | _ => (container.zero, false)

/-- Go `type specTest struct`, over the type `δ` of the decoded JSON `data`. -/
structure specTest (δ : Type) where
  Name : String
  Data : δ
  Expected : String
  Template : String
  Description : String
  Partials : List (String × String)

/-- Modelled from the spec: the reference adapter `StaticProvider`, whose
declaration is not among the sources, wraps a fixed name→text mapping. -/
structure StaticProvider where
  Partials : List (String × String)

/-- One line handed to `t.Logf` or `t.Errorf`: the format string and its
arguments, kept apart. -/
structure LogEntry where
  format : String
  args : List String
  deriving DecidableEq, Repr

/-- The part of `testing.T` that `runTest` touches: the failure mark and the
lines logged so far. -/
structure T where
  failed : Bool
  output : List LogEntry
  deriving DecidableEq, Repr

/-- Go `t.Logf`: appends a line, leaves the failure mark alone. -/
def T.Logf (t : T) (format : String) (args : List String) : T :=
  { failed := t.failed, output := t.output ++ [⟨format, args⟩] }

/-- Go `t.Errorf`: `Logf` followed by `Fail`. -/
def T.Errorf (t : T) (format : String) (args : List String) : T :=
  { failed := true, output := t.output ++ [⟨format, args⟩] }

/-- Go `runTest`.  `Render` and `RenderPartials`, which live outside these
sources, are parameters returning the pair `(out, err)`.  The result is the
state of `t` on return, or `none` when the call panics: that can only happen
at `err.Error()` on a wrapper around a nil error. -/
def runTest {δ : Type} (Render : String → δ → String × GoError)
    (RenderPartials : String → StaticProvider → δ → String × GoError)
    (t : T) (file : String) (test : specTest δ) : Option T :=
  let (c, ok) := lookupTest file test.Name
  let t := if !ok then
      t.Errorf "[%s %s]: Unexpected test, add to enabledTests" [file, test.Name]
    else t
  if !c.enabled then
    some (t.Logf "[%s %s]: Skipped" [file, test.Name])
  else
    let (out, err) :=
      if test.Partials.length > 0 then
        RenderPartials test.Template ⟨test.Partials⟩ test.Data
      else
        Render test.Template test.Data
    let skipMissing := c.acceptMissing && ErrorMatchesType err ErrorTypeMissingParams
    if !err.isNil && !skipMissing then
      match err.Error with
      | none => none
      | some msg => some (t.Errorf "[%s %s]: %s" [file, test.Name, msg])
    else if out != test.Expected && !skipMissing then
      some (t.Errorf "[%s %s]: Expected %q, got %q" [file, test.Name, test.Expected, out])
    else
      some (t.Logf "[%s %s]: Passed" [file, test.Name])

/-! ## Vocabulary of the properties -/

/-- The call returned normally and left `t` unfailed. -/
def recordsNoFailure (r : Option T) : Bool :=
  match r with
  | some t => !t.failed
  | none => false

/-- Substring test: some suffix of `s` starts with `sub`. -/
def containsSubstr (s sub : String) : Bool :=
  s.toList.tails.any (fun suffix => sub.toList.isPrefixOf suffix)

/-- A fixture name that announces a context miss. -/
def isContextMissName (name : String) : Bool :=
  containsSubstr name "Context Miss" || containsSubstr name "Broken Chain"

/-- Every `(file, name, container)` triple of `enabledTests`. -/
def listedEntries : List (String × String × container) :=
  enabledTests.flatMap fun fm =>
    match fm.2 with
    | none => []
    | some m => m.map fun nc => (fm.1, nc.1, nc.2)

/-- The three declared kinds. -/
def declaredKinds : List ErrorType :=
  [ErrorTypeNone, ErrorTypeUnknown, ErrorTypeMissingParams]

/-- The render call of `runTest`: `RenderPartials` when the fixture has
partials, `Render` otherwise. -/
def renderCall {δ : Type} (Render : String → δ → String × GoError)
    (RenderPartials : String → StaticProvider → δ → String × GoError)
    (test : specTest δ) : String × GoError :=
  if test.Partials.length > 0 then
    RenderPartials test.Template ⟨test.Partials⟩ test.Data
  else
    Render test.Template test.Data

/-- A fresh `testing.T`. -/
def freshT : T := ⟨false, []⟩

/-- Sample fixture: the flagged `sections.json` / `Context Misses`. -/
def sampleMissTest : specTest Unit :=
  ⟨"Context Misses", (), "[Cannot find key]", "[template]", "", []⟩

/-- Sample fixture: the disabled `interpolation.json` / `HTML Escaping`. -/
def sampleEscapingTest : specTest Unit :=
  ⟨"HTML Escaping", (), "expected", "forbidden", "", []⟩

/-- Sample renderer that reports a missing parameter. -/
def sampleRenderMissing : String → Unit → String × GoError :=
  fun _ _ => ("", WrapError (GoError.foreign "Missing variable") ErrorTypeMissingParams)

/-- Sample partial renderer, unused by fixtures without partials. -/
def sampleRenderPartials : String → StaticProvider → Unit → String × GoError :=
  fun _ _ _ => ("", GoError.nil)

/-! ## Classifier: basic evaluation lemmas -/

theorem errorMatchesType_nil (t : ErrorType) :
    ErrorMatchesType GoError.nil t = (t == ErrorTypeNone) := rfl

theorem errorMatchesType_foreign (msg : String) (t : ErrorType) :
    ErrorMatchesType (GoError.foreign msg) t = (t == ErrorTypeUnknown) := rfl

theorem errorMatchesType_e (err : GoError) (et t : ErrorType) :
    ErrorMatchesType (GoError.e err et) t = (et == t) := rfl

/-- C1: wrapping then classifying recovers exactly the wrapped kind: for every
error `err` (nil or not) and kinds `t`, `t2`, `ErrorMatchesType (WrapError err t) t2`
holds if and only if `t2 = t`. -/
theorem C1_wrap_classify_roundtrip (err : GoError) (t t2 : ErrorType) :
    ErrorMatchesType (WrapError err t) t2 = true ↔ t2 = t := by
  unfold WrapError
  rw [errorMatchesType_e]
  constructor
  · intro h
    exact (beq_iff_eq.mp h).symm
  · intro h
    exact beq_iff_eq.mpr h.symm

/-- C3: a nil error carries the kind None and no other: `ErrorMatchesType nil t`
holds if and only if `t = ErrorTypeNone`; in particular nil matches neither
Unknown nor MissingParams. -/
theorem C3_nil_matches_only_none :
    (∀ t : ErrorType, ErrorMatchesType GoError.nil t = true ↔ t = ErrorTypeNone) ∧
    ErrorMatchesType GoError.nil ErrorTypeUnknown = false ∧
    ErrorMatchesType GoError.nil ErrorTypeMissingParams = false := by
  refine ⟨?_, by decide, by decide⟩
  intro t
  rw [errorMatchesType_nil]
  exact beq_iff_eq

/-- C10: `WrapError` never returns nil: for every `err`, nil included, and every
kind `t` the result is a non-nil error value; in particular
`WrapError nil ErrorTypeNone` is non-nil, so an `err != nil` check fires on it. -/
theorem C10_wrapError_never_nil :
    (∀ (err : GoError) (t : ErrorType),
      WrapError err t ≠ GoError.nil ∧ (WrapError err t).isNil = false) ∧
    (WrapError GoError.nil ErrorTypeNone).isNil = false := by
  refine ⟨?_, rfl⟩
  intro err t
  exact ⟨fun h => GoError.noConfusion h, rfl⟩

/-- C4: an error that did not come from the classifier counts as Unknown: for a
non-nil `err` whose dynamic type is not `e`, `ErrorMatchesType err t` holds if
and only if `t = ErrorTypeUnknown`. -/
theorem C4_foreign_is_unknown (err : GoError) (t : ErrorType)
    (hnil : err.isNil = false) (hty : err.assertE = none) :
    ErrorMatchesType err t = true ↔ t = ErrorTypeUnknown := by
  cases err with
  | nil => simp [GoError.isNil] at hnil
  | foreign msg =>
    rw [errorMatchesType_foreign]
    exact beq_iff_eq
  | e inner et => simp [GoError.assertE] at hty

theorem C4_foreign_is_unknown_witness :
    (GoError.foreign "boom").isNil = false ∧ (GoError.foreign "boom").assertE = none ∧
    (ErrorMatchesType (GoError.foreign "boom") ErrorTypeUnknown = true ↔
      ErrorTypeUnknown = ErrorTypeUnknown) :=
  ⟨rfl, rfl, C4_foreign_is_unknown (GoError.foreign "boom") ErrorTypeUnknown rfl rfl⟩

/-- C2 as stated fails: a foreign error wrapped with the kind None matches
`ErrorTypeNone` and is not nil. -/
theorem C2_counterexample :
    ErrorMatchesType (WrapError (GoError.foreign "boom") ErrorTypeNone) ErrorTypeNone = true ∧
    WrapError (GoError.foreign "boom") ErrorTypeNone ≠ GoError.nil ∧
    ¬ (∀ err : GoError, ErrorMatchesType err ErrorTypeNone = true → err = GoError.nil) := by
  refine ⟨by decide, by decide, ?_⟩
  intro h
  exact absurd (h (WrapError (GoError.foreign "boom") ErrorTypeNone) (by decide)) (by decide)

/-- C2, amended: if `ErrorMatchesType err ErrorTypeNone` holds then `err` is nil
or `err` is a value `WrapError inner ErrorTypeNone`; no foreign error and no
wrapper with another tag matches None. -/
theorem C2_none_only_nil_or_wrapped_none (err : GoError)
    (h : ErrorMatchesType err ErrorTypeNone = true) :
    err = GoError.nil ∨ ∃ inner, err = WrapError inner ErrorTypeNone := by
  cases err with
  | nil => exact Or.inl rfl
  | foreign msg =>
    rw [errorMatchesType_foreign] at h
    exact absurd h (by decide)
  | e inner et =>
    rw [errorMatchesType_e] at h
    have het : et = ErrorTypeNone := beq_iff_eq.mp h
    exact Or.inr ⟨inner, by rw [het]; rfl⟩

theorem C2_none_only_nil_or_wrapped_none_witness :
    ErrorMatchesType (WrapError (GoError.foreign "boom") ErrorTypeNone) ErrorTypeNone = true ∧
    (WrapError (GoError.foreign "boom") ErrorTypeNone = GoError.nil ∨
      ∃ inner, WrapError (GoError.foreign "boom") ErrorTypeNone = WrapError inner ErrorTypeNone) :=
  ⟨by decide,
   C2_none_only_nil_or_wrapped_none (WrapError (GoError.foreign "boom") ErrorTypeNone) (by decide)⟩

/-- C5 as stated fails: `ErrorType` is an `int`, and a wrapper tagged with the
value 3 matches none of the three declared kinds. -/
theorem C5_counterexample :
    ErrorMatchesType (WrapError (GoError.foreign "boom") 3) ErrorTypeNone = false ∧
    ErrorMatchesType (WrapError (GoError.foreign "boom") 3) ErrorTypeUnknown = false ∧
    ErrorMatchesType (WrapError (GoError.foreign "boom") 3) ErrorTypeMissingParams = false := by
  decide

/-- C5, amended: for every error that is nil, foreign, or a wrapper whose tag
is one of the three declared kinds, exactly one kind among None, Unknown and
MissingParams satisfies `ErrorMatchesType`. -/
theorem C5_exactly_one_declared_kind (err : GoError)
    (h : ∀ inner t, err.assertE = some (inner, t) → t ∈ declaredKinds) :
    ∃! k, k ∈ declaredKinds ∧ ErrorMatchesType err k = true := by
  cases err with
  | nil =>
    refine ⟨ErrorTypeNone, ⟨by decide, rfl⟩, ?_⟩
    rintro k ⟨-, hk⟩
    rw [errorMatchesType_nil] at hk
    exact beq_iff_eq.mp hk
  | foreign msg =>
    refine ⟨ErrorTypeUnknown, ⟨by decide, rfl⟩, ?_⟩
    rintro k ⟨-, hk⟩
    rw [errorMatchesType_foreign] at hk
    exact beq_iff_eq.mp hk
  | e inner et =>
    refine ⟨et, ⟨h inner et rfl, ?_⟩, ?_⟩
    · rw [errorMatchesType_e]
      exact beq_self_eq_true et
    · rintro k ⟨-, hk⟩
      rw [errorMatchesType_e] at hk
      exact (beq_iff_eq.mp hk).symm

theorem C5_exactly_one_declared_kind_witness :
    (∀ inner t, (WrapError (GoError.foreign "boom") ErrorTypeMissingParams).assertE
        = some (inner, t) → t ∈ declaredKinds) ∧
    ∃! k, k ∈ declaredKinds ∧
      ErrorMatchesType (WrapError (GoError.foreign "boom") ErrorTypeMissingParams) k = true :=
  have hyp : ∀ inner t, (WrapError (GoError.foreign "boom") ErrorTypeMissingParams).assertE
      = some (inner, t) → t ∈ declaredKinds := by
    intro inner t heq
    simp only [WrapError, GoError.assertE, Option.some.injEq, Prod.mk.injEq] at heq
    rw [← heq.2]
    decide
  ⟨hyp, C5_exactly_one_declared_kind _ hyp⟩

/-- C6: wrapping keeps the error text: for a non-nil `err` and any kind `t`,
calling `Error()` on `WrapError err t` gives what `err.Error()` gives, and the
result is the same for every other tag; when `err` is not itself a wrapper the
call returns a text, the one of `err`. -/
theorem C6_wrap_keeps_message (err : GoError) (t : ErrorType)
    (hnil : err.isNil = false) :
    (WrapError err t).Error = err.Error ∧
    (∀ t2 : ErrorType, (WrapError err t2).Error = (WrapError err t).Error) ∧
    (err.assertE = none →
      ∃ msg, err.Error = some msg ∧ (WrapError err t).Error = some msg) := by
  refine ⟨rfl, fun _ => rfl, ?_⟩
  intro hty
  cases err with
  | nil => simp [GoError.isNil] at hnil
  | foreign msg => exact ⟨msg, rfl, rfl⟩
  | e inner et => simp [GoError.assertE] at hty

theorem C6_wrap_keeps_message_witness :
    (GoError.foreign "boom").isNil = false ∧
    (WrapError (GoError.foreign "boom") ErrorTypeMissingParams).Error = some "boom" :=
  ⟨rfl, (C6_wrap_keeps_message (GoError.foreign "boom") ErrorTypeMissingParams rfl).1⟩

/-! ## Harness: the fixture table -/

theorem lookup_mem {α β : Type} [BEq α] [LawfulBEq α] (k : α) (v : β) :
    ∀ l : List (α × β), l.lookup k = some v → (k, v) ∈ l := by
  intro l
  induction l with
  | nil => intro h; simp [List.lookup] at h
  | cons p rest ih =>
    obtain ⟨a, b⟩ := p
    intro h
    by_cases hka : k == a
    · have hka2 : k = a := eq_of_beq hka
      simp [List.lookup, hka] at h
      rw [hka2, h]
      exact List.mem_cons_self _ _
    · have hka2 : (k == a) = false := by simpa using hka
      simp [List.lookup, hka2] at h
      exact List.mem_cons_of_mem _ (ih h)

/-- A successful two-step index names an entry of the table. -/
theorem lookupTest_listed (file name : String) (h : (lookupTest file name).2 = true) :
    (file, name, (lookupTest file name).1) ∈ listedEntries := by
  unfold lookupTest at h ⊢
  cases hf : enabledTests.lookup file with
  | none => simp [hf] at h
  | some om =>
    cases om with
    | none => simp [hf] at h
    | some m =>
      cases hn : m.lookup name with
      | none => simp [hf, hn] at h
      | some c =>
        simp only [hf, hn]
        unfold listedEntries
        rw [List.mem_flatMap]
        refine ⟨(file, some m), lookup_mem file (some m) enabledTests hf, ?_⟩
        simp only [List.mem_map]
        exact ⟨(name, c), lookup_mem name c m hn, rfl⟩

/-! ## Harness: `runTest` -/

/-- On a listed and enabled fixture `runTest` goes on to render and compare. -/
theorem runTest_enabled {δ : Type} (Render : String → δ → String × GoError)
    (RenderPartials : String → StaticProvider → δ → String × GoError)
    (t : T) (file : String) (test : specTest δ) (out : String) (err : GoError)
    (hok : (lookupTest file test.Name).2 = true)
    (hen : (lookupTest file test.Name).1.enabled = true)
    (hr : renderCall Render RenderPartials test = (out, err)) :
    runTest Render RenderPartials t file test =
      if !err.isNil &&
          !((lookupTest file test.Name).1.acceptMissing &&
            ErrorMatchesType err ErrorTypeMissingParams) then
        match err.Error with
        | none => none
        | some msg => some (t.Errorf "[%s %s]: %s" [file, test.Name, msg])
      else if out != test.Expected &&
          !((lookupTest file test.Name).1.acceptMissing &&
            ErrorMatchesType err ErrorTypeMissingParams) then
        some (t.Errorf "[%s %s]: Expected %q, got %q" [file, test.Name, test.Expected, out])
      else
        some (t.Logf "[%s %s]: Passed" [file, test.Name]) := by
  unfold renderCall at hr
  unfold runTest
  rcases hlk : lookupTest file test.Name with ⟨c, ok⟩
  rw [hlk] at hok hen
  simp only at hok hen
  simp only [hok, hen, hr, Bool.not_true, Bool.false_eq_true, if_false]

/-- On a listed and disabled fixture `runTest` logs the skip and returns. -/
theorem runTest_disabled {δ : Type} (Render : String → δ → String × GoError)
    (RenderPartials : String → StaticProvider → δ → String × GoError)
    (t : T) (file : String) (test : specTest δ)
    (hok : (lookupTest file test.Name).2 = true)
    (hen : (lookupTest file test.Name).1.enabled = false) :
    runTest Render RenderPartials t file test =
      some (t.Logf "[%s %s]: Skipped" [file, test.Name]) := by
  unfold runTest
  rcases hlk : lookupTest file test.Name with ⟨c, ok⟩
  rw [hlk] at hok hen
  simp only at hok hen
  simp only [hok, hen, Bool.not_true, Bool.not_false, Bool.false_eq_true, if_false, if_true]

/-- The verdict of the render-and-compare part, by cases on the error. -/
theorem verdict_iff (t : T) (file name expected out : String) (err : GoError) (flag : Bool)
    (ht : t.failed = false) :
    recordsNoFailure
      (if !err.isNil && !(flag && ErrorMatchesType err ErrorTypeMissingParams) then
        match err.Error with
        | none => none
        | some msg => some (t.Errorf "[%s %s]: %s" [file, name, msg])
      else if out != expected && !(flag && ErrorMatchesType err ErrorTypeMissingParams) then
        some (t.Errorf "[%s %s]: Expected %q, got %q" [file, name, expected, out])
      else
        some (t.Logf "[%s %s]: Passed" [file, name])) = true ↔
    (err = GoError.nil ∧ out = expected) ∨
      (flag = true ∧ ErrorMatchesType err ErrorTypeMissingParams = true) := by
  by_cases hskip : (flag && ErrorMatchesType err ErrorTypeMissingParams) = true
  · have hboth : flag = true ∧ ErrorMatchesType err ErrorTypeMissingParams = true := by
      simpa using hskip
    simp [hskip, recordsNoFailure, T.Logf, ht, hboth.1, hboth.2]
  · have hskip2 : (flag && ErrorMatchesType err ErrorTypeMissingParams) = false := by
      simpa using hskip
    have hnot : ¬ (flag = true ∧ ErrorMatchesType err ErrorTypeMissingParams = true) := by
      simpa using hskip
    rw [hskip2]
    cases err with
    | nil =>
      by_cases ho : out = expected
      · simp [GoError.isNil, recordsNoFailure, T.Logf, ht, ho]
      · simp [GoError.isNil, recordsNoFailure, T.Errorf, ho, hnot]
    | foreign msg =>
      simp [GoError.isNil, GoError.Error, recordsNoFailure, T.Errorf, hnot]
    | e inner et =>
      have hne : ¬ (GoError.e inner et = GoError.nil ∧ out = expected) :=
        fun h => GoError.noConfusion h.1
      cases hmsg : (GoError.e inner et).Error with
      | none => simp [GoError.isNil, recordsNoFailure, hnot]
      | some msg => simp [GoError.isNil, recordsNoFailure, T.Errorf, hnot]

/-- C7: the harness verdict.  For a fixture that is listed in `enabledTests` and
enabled, and a render result `(out, err)`, `runTest` records no failure if and
only if `err` is nil and `out` is the expected string, or the fixture is flagged
`acceptMissing` and `err` matches `ErrorTypeMissingParams`.  In particular an
error of kind Unknown fails the fixture even when flagged, and an unflagged
fixture fails on a MissingParams error. -/
theorem C7_harness_verdict {δ : Type} (Render : String → δ → String × GoError)
    (RenderPartials : String → StaticProvider → δ → String × GoError)
    (t : T) (file : String) (test : specTest δ) (out : String) (err : GoError)
    (ht : t.failed = false)
    (hok : (lookupTest file test.Name).2 = true)
    (hen : (lookupTest file test.Name).1.enabled = true)
    (hr : renderCall Render RenderPartials test = (out, err)) :
    (recordsNoFailure (runTest Render RenderPartials t file test) = true ↔
      (err = GoError.nil ∧ out = test.Expected) ∨
        ((lookupTest file test.Name).1.acceptMissing = true ∧
          ErrorMatchesType err ErrorTypeMissingParams = true)) ∧
    (ErrorMatchesType err ErrorTypeUnknown = true →
      recordsNoFailure (runTest Render RenderPartials t file test) = false) ∧
    ((lookupTest file test.Name).1.acceptMissing = false →
      ErrorMatchesType err ErrorTypeMissingParams = true →
      recordsNoFailure (runTest Render RenderPartials t file test) = false) := by
  have hiff : recordsNoFailure (runTest Render RenderPartials t file test) = true ↔
      (err = GoError.nil ∧ out = test.Expected) ∨
        ((lookupTest file test.Name).1.acceptMissing = true ∧
          ErrorMatchesType err ErrorTypeMissingParams = true) := by
    rw [runTest_enabled Render RenderPartials t file test out err hok hen hr]
    exact verdict_iff t file test.Name test.Expected out err _ ht
  refine ⟨hiff, ?_, ?_⟩
  · intro hunk
    rw [Bool.eq_false_iff]
    intro hpass
    rcases hiff.mp hpass with ⟨hnil, -⟩ | ⟨-, hmp⟩
    · rw [hnil] at hunk
      exact absurd hunk (by decide)
    · cases err with
      | nil => exact absurd hunk (by decide)
      | foreign msg =>
        rw [errorMatchesType_foreign] at hmp
        exact absurd hmp (by decide)
      | e inner et =>
        rw [errorMatchesType_e] at hunk hmp
        have h1 : et = ErrorTypeUnknown := beq_iff_eq.mp hunk
        have h2 : et = ErrorTypeMissingParams := beq_iff_eq.mp hmp
        rw [h1] at h2
        exact absurd h2 (by decide)
  · intro hflag hmp
    rw [Bool.eq_false_iff]
    intro hpass
    rcases hiff.mp hpass with ⟨hnil, -⟩ | ⟨hf, -⟩
    · rw [hnil] at hmp
      exact absurd hmp (by decide)
    · rw [hflag] at hf
      exact absurd hf (by decide)

theorem C7_harness_verdict_witness :
    freshT.failed = false ∧
    (lookupTest "sections.json" sampleMissTest.Name).2 = true ∧
    (lookupTest "sections.json" sampleMissTest.Name).1.enabled = true ∧
    renderCall sampleRenderMissing sampleRenderPartials sampleMissTest =
      ("", WrapError (GoError.foreign "Missing variable") ErrorTypeMissingParams) ∧
    recordsNoFailure
      (runTest sampleRenderMissing sampleRenderPartials freshT "sections.json" sampleMissTest)
      = true :=
  ⟨rfl, by decide, by decide, rfl,
   (C7_harness_verdict sampleRenderMissing sampleRenderPartials freshT "sections.json"
      sampleMissTest "" (WrapError (GoError.foreign "Missing variable") ErrorTypeMissingParams)
      rfl (by decide) (by decide) rfl).1.mpr (Or.inr ⟨by decide, by decide⟩)⟩

/-- C8 as stated fails: `interpolation.json` / `HTML Escaping` is listed with
`acceptMissing = true`, and its name contains neither "Context Miss" nor
"Broken Chain". -/
theorem C8_counterexample :
    lookupTest "interpolation.json" "HTML Escaping" = (⟨false, true⟩, true) ∧
    (lookupTest "interpolation.json" "HTML Escaping").1.acceptMissing = true ∧
    isContextMissName "HTML Escaping" = false := by
  decide

/-- C8, amended: every entry of `enabledTests` that is enabled and flagged
`acceptMissing` has a name containing "Context Miss" or "Broken Chain"; a
flagged entry of any other name is the disabled `interpolation.json` /
`HTML Escaping`. -/
theorem C8_enabled_flagged_are_context_miss (file name : String)
    (hok : (lookupTest file name).2 = true)
    (hflag : (lookupTest file name).1.acceptMissing = true) :
    ((lookupTest file name).1.enabled = true → isContextMissName name = true) ∧
    (isContextMissName name = false →
      file = "interpolation.json" ∧ name = "HTML Escaping" ∧
        (lookupTest file name).1.enabled = false) := by
  have hall : ∀ p ∈ listedEntries, p.2.2.acceptMissing = true →
      (p.2.2.enabled = true → isContextMissName p.2.1 = true) ∧
      (isContextMissName p.2.1 = false →
        p.1 = "interpolation.json" ∧ p.2.1 = "HTML Escaping" ∧ p.2.2.enabled = false) := by
    decide
  exact hall _ (lookupTest_listed file name hok) hflag

theorem C8_enabled_flagged_are_context_miss_witness :
    (lookupTest "sections.json" "Context Misses").2 = true ∧
    (lookupTest "sections.json" "Context Misses").1.acceptMissing = true ∧
    (lookupTest "sections.json" "Context Misses").1.enabled = true ∧
    isContextMissName "Context Misses" = true :=
  ⟨by decide, by decide, by decide,
   (C8_enabled_flagged_are_context_miss "sections.json" "Context Misses"
      (by decide) (by decide)).1 (by decide)⟩

/-- C9: `interpolation.json` / `HTML Escaping` is listed with `enabled = false`,
every other listed entry has `enabled = true`, and on a listed, disabled fixture
`runTest` only logs the skip and returns with no failure recorded, whatever the
renderers and the fixture's template, data and expected output are. -/
theorem C9_html_escaping_only_disabled :
    ((lookupTest "interpolation.json" "HTML Escaping").2 = true ∧
      (lookupTest "interpolation.json" "HTML Escaping").1.enabled = false) ∧
    (∀ file name : String, (lookupTest file name).2 = true →
      ¬ (file = "interpolation.json" ∧ name = "HTML Escaping") →
      (lookupTest file name).1.enabled = true) ∧
    (∀ (δ : Type) (Render : String → δ → String × GoError)
      (RenderPartials : String → StaticProvider → δ → String × GoError)
      (t : T) (file : String) (test : specTest δ),
      t.failed = false →
      (lookupTest file test.Name).2 = true →
      (lookupTest file test.Name).1.enabled = false →
      runTest Render RenderPartials t file test =
          some (t.Logf "[%s %s]: Skipped" [file, test.Name]) ∧
        recordsNoFailure (runTest Render RenderPartials t file test) = true) := by
  refine ⟨by decide, ?_, ?_⟩
  · intro file name hok hne
    have hall : ∀ p ∈ listedEntries,
        ¬ (p.1 = "interpolation.json" ∧ p.2.1 = "HTML Escaping") → p.2.2.enabled = true := by
      decide
    exact hall _ (lookupTest_listed file name hok) hne
  · intro δ Render RenderPartials t file test ht hok hen
    have hrun := runTest_disabled Render RenderPartials t file test hok hen
    refine ⟨hrun, ?_⟩
    rw [hrun]
    simp [recordsNoFailure, T.Logf, ht]

theorem C9_html_escaping_only_disabled_witness :
    freshT.failed = false ∧
    (lookupTest "interpolation.json" sampleEscapingTest.Name).2 = true ∧
    (lookupTest "interpolation.json" sampleEscapingTest.Name).1.enabled = false ∧
    recordsNoFailure
      (runTest sampleRenderMissing sampleRenderPartials freshT "interpolation.json"
        sampleEscapingTest) = true :=
  ⟨rfl, by decide, by decide,
   (C9_html_escaping_only_disabled.2.2 Unit sampleRenderMissing sampleRenderPartials freshT
      "interpolation.json" sampleEscapingTest rfl (by decide) (by decide)).2⟩

end Mustache
